import Mathlib

/-!
Shallow embedding of the apnaspace user service core:
the follow-graph repository (`UserRepository` in
`src/api/v1/users/repositories/user.repository.ts`) and the
`authorizeUserAction` authorization middleware.

The MongoDB document store is modelled as a partial map from user ids to
user records.  A `findByIdAndUpdate` call whose id does not resolve to an
existing record is a silent no-op (Mongo matches nothing and raises no
error).  Transactions are all-or-nothing: a fault at any point before a
successful commit aborts the transaction and leaves the visible store
unchanged; the fault point is an explicit parameter of the transactional
operations.  Each read operation takes an explicit `fault : Bool`
modelling a thrown storage error, which the source catches.
-/

namespace ApnaSpace

/-- A user document, restricted to the fields the follow graph and the
follower projections touch (`fullName`, `avatar`, `followers`,
`following`). -/
structure UserRec where
  fullName : String
  avatar : Option String
  followers : List String
  following : List String
deriving Repr, DecidableEq

/-- The document store: a partial map from user id to user record. -/
abbrev Store := String → Option UserRec

/-- Mongo `$addToSet`: append the element unless it is already a member. -/
def addToSet (x : String) (xs : List String) : List String :=
  if x ∈ xs then xs else xs ++ [x]

/-- Mongo `$pull`: remove every occurrence of the element. -/
def pullItem (x : String) (xs : List String) : List String :=
  xs.filter (fun y => decide (y ≠ x))

/-- Embedding of `User.findByIdAndUpdate(id, update)`: apply the update to the record
with the given id when it exists; silently change nothing when the id
does not resolve to an existing record. -/
def findByIdAndUpdate (s : Store) (id : String) (f : UserRec → UserRec) : Store :=
  fun k => if k = id then (s k).map f else s k

/-- Storage-session operations a repository call performs, recorded so
that "touches storage" is an inspectable part of each operation. -/
inductive StorageOp where
  | startSession
  | update (id : String)
  | commitTx
  | abortTx
deriving Repr, DecidableEq

/-- Possible fault points inside a two-write transaction. -/
inductive Fault where
  | atFirstUpdate
  | atSecondUpdate
  | atCommit
deriving Repr, DecidableEq

/-- Result of a transactional repository call: the store visible after
the call, the returned boolean, and the storage operations performed. -/
structure TxResult where
  store : Store
  ok : Bool
  ops : List StorageOp

/-- Embedding of `UserRepository.followUser(userId, targetUserId)`: inside one
transaction, `$addToSet` `userId` into `targetUserId.followers` and
`$addToSet` `targetUserId` into `userId.following`; commit and return
`true`, or abort on any error and return `false`. -/
def followUser (s : Store) (userId targetUserId : String)
    (fault : Option Fault) : TxResult :=
  if fault = some Fault.atFirstUpdate then
    { store := s, ok := false, ops := [.startSession, .abortTx] }
  else
    let s1 := findByIdAndUpdate s targetUserId
      (fun u => { u with followers := addToSet userId u.followers })
    if fault = some Fault.atSecondUpdate then
      { store := s, ok := false,
        ops := [.startSession, .update targetUserId, .abortTx] }
    else
      let s2 := findByIdAndUpdate s1 userId
        (fun u => { u with following := addToSet targetUserId u.following })
      if fault = some Fault.atCommit then
        { store := s, ok := false,
          ops := [.startSession, .update targetUserId, .update userId, .abortTx] }
      else
        { store := s2, ok := true,
          ops := [.startSession, .update targetUserId, .update userId, .commitTx] }

/-- Embedding of `UserRepository.removeFollow(userId, targetUserId)`: short-circuit to
`false` when `userId === targetUserId` (before any session is started);
otherwise, inside one transaction, `$pull` `userId` from
`targetUserId.followers` and `$pull` `targetUserId` from
`userId.following`; commit and return `true`, or abort on any error and
return `false`. -/
def removeFollow (s : Store) (userId targetUserId : String)
    (fault : Option Fault) : TxResult :=
  if userId = targetUserId then
    { store := s, ok := false, ops := [] }
  else if fault = some Fault.atFirstUpdate then
    { store := s, ok := false, ops := [.startSession, .abortTx] }
  else
    let s1 := findByIdAndUpdate s targetUserId
      (fun u => { u with followers := pullItem userId u.followers })
    if fault = some Fault.atSecondUpdate then
      { store := s, ok := false,
        ops := [.startSession, .update targetUserId, .abortTx] }
    else
      let s2 := findByIdAndUpdate s1 userId
        (fun u => { u with following := pullItem targetUserId u.following })
      if fault = some Fault.atCommit then
        { store := s, ok := false,
          ops := [.startSession, .update targetUserId, .update userId, .abortTx] }
      else
        { store := s2, ok := true,
          ops := [.startSession, .update targetUserId, .update userId, .commitTx] }

/-- Projection returned by the follower/following listings
(`IFollowUser`): id, full name and avatar. -/
structure IFollowUser where
  id : String
  fullName : String
  avatar : Option String
deriving Repr, DecidableEq

/-- Embedding of `UserRepository.isFollowing(userId, targetUserId)`:
`findOne({_id: targetUserId, followers: userId})` and coerce to boolean;
a thrown storage error is caught and reported as `false`. -/
def isFollowing (s : Store) (userId targetUserId : String)
    (fault : Bool) : Bool :=
  if fault then false
  else
    match s targetUserId with
    | some u => decide (userId ∈ u.followers)
    | none => false

/-- Embedding of `UserRepository.findFollowers(userId)`: read the user's `followers`
ids, return `[]` when the user is missing or has none, otherwise resolve
each id that exists to its `{id, fullName, avatar}` projection; a thrown
storage error is caught and reported as `[]`. -/
def findFollowers (s : Store) (userId : String)
    (fault : Bool) : List IFollowUser :=
  if fault then []
  else
    match s userId with
    | none => []
    | some u =>
      if u.followers.length = 0 then []
      else u.followers.filterMap (fun fid =>
        (s fid).map (fun fu =>
          { id := fid, fullName := fu.fullName, avatar := fu.avatar }))

/-- Embedding of `UserRepository.findFollowing(userId)`: symmetric projection over the
`following` ids; a thrown storage error is caught and reported as `[]`. -/
def findFollowing (s : Store) (userId : String)
    (fault : Bool) : List IFollowUser :=
  if fault then []
  else
    match s userId with
    | none => []
    | some u =>
      if u.following.length = 0 then []
      else u.following.filterMap (fun fid =>
        (s fid).map (fun fu =>
          { id := fid, fullName := fu.fullName, avatar := fu.avatar }))

/-- Result shape of `getFollowCounts` (`IFollowCount`). -/
structure IFollowCount where
  followerCount : Nat
  followingCount : Nat
deriving Repr, DecidableEq

/-- Embedding of `UserRepository.getFollowCounts(userId)`: `null` when the record
does not exist, otherwise the lengths of the two arrays; a thrown
storage error is caught and reported as `null`. -/
def getFollowCounts (s : Store) (userId : String)
    (fault : Bool) : Option IFollowCount :=
  if fault then none
  else
    match s userId with
    | none => none
    | some u =>
      some { followerCount := u.followers.length,
             followingCount := u.following.length }

/-- Role tag of an authenticated identity. -/
inductive UserRole where
  | USER
  | ADMIN
deriving Repr, DecidableEq

/-- Authenticated actor context (`IAuthUser`), reduced to the fields the
middleware reads. -/
structure AuthUser where
  id : String
  role : UserRole
deriving Repr, DecidableEq

/-- Outcome of the middleware: pass control on (`next()`) or throw an
`ApiError(message, status, code)`. -/
inductive AuthDecision where
  | next
  | apiError (message : String) (status : Nat) (code : String)
deriving Repr, DecidableEq

/-- Embedding of the `authorizeUserAction(message)` middleware: 401 when no authenticated
user, 400 when the target id is missing or empty (a JS falsy check),
else admins are allowed everything except `DELETE` on themselves and
plain users are allowed exactly their own resource.  The `method` string
is uppercased before comparison, mirroring `req.method?.toUpperCase()`. -/
def authorizeUserAction (message : String) (user : Option AuthUser)
    (targetUserId : Option String) (method : String) : AuthDecision :=
  let methodU := method.toUpper
  match user with
  | none => .apiError "Unauthorized request" 401 "UNAUTHORIZED"
  | some u =>
    match targetUserId with
    | none => .apiError "Target user not specified" 400 "BAD_REQUEST"
    | some tid =>
      if tid = "" then
        .apiError "Target user not specified" 400 "BAD_REQUEST"
      else if u.role = UserRole.ADMIN then
        if u.id = tid ∧ methodU = "DELETE" then
          .apiError message 403 "PERMISSION_DENIED"
        else .next
      else if u.id = tid then .next
      else
        .apiError "You do not have permission to perform this action"
          403 "PERMISSION_DENIED"

/-- Default value of the middleware's `message` parameter. -/
def defaultAuthMessage : String := "Action not allowed on yourself"

/-- Membership of `a` in `b.followers` (false when `b` has no record):
the followers side of the conceptual edge `a → b`. -/
def isFollowerIn (s : Store) (a b : String) : Bool :=
  match s b with
  | some u => decide (a ∈ u.followers)
  | none => false

/-- Membership of `b` in `a.following` (false when `a` has no record):
the following side of the conceptual edge `a → b`. -/
def isFollowingIn (s : Store) (a b : String) : Bool :=
  match s a with
  | some u => decide (b ∈ u.following)
  | none => false

/-- Invariant I1 (dual consistency): for every pair of distinct ids, the
followers side of the edge agrees with the following side. -/
def dualConsistent (s : Store) : Prop :=
  ∀ a b : String, a ≠ b → isFollowerIn s a b = isFollowingIn s a b

/-- Modelled from the spec: the authorization decision matrix of §4.1 as
a pure boolean function of `(isSelf, isAdmin, isDelete)` — admins are
allowed everything except deleting themselves, plain users exactly
themselves. -/
def specDecisionMatrix (isSelf isAdmin isDelete : Bool) : Bool :=
  if isAdmin then !(isSelf && isDelete) else isSelf

/-- Concrete store: only the record `"b"` exists, with empty edge sets. -/
def storeOnlyB : Store :=
  fun k => if k = "b" then some ⟨"Bee", none, [], []⟩ else none

/-- Concrete store: only the record `"a"` exists, with empty edge sets. -/
def storeOnlyA : Store :=
  fun k => if k = "a" then some ⟨"A", none, [], []⟩ else none

/-- Concrete store: only the record `"u"` exists, followed by `"a"` and
following `"b"`. -/
def storeUserU : Store :=
  fun k => if k = "u" then some ⟨"U", none, ["a"], ["b"]⟩ else none

/-- Concrete store: only the record `"u"` exists, followed by `"a"`. -/
def storeUserUFollowerA : Store :=
  fun k => if k = "u" then some ⟨"U", none, ["a"], []⟩ else none

theorem mem_addToSet {x y : String} {l : List String} :
    y ∈ addToSet x l ↔ y ∈ l ∨ y = x := by
  unfold addToSet
  by_cases h : x ∈ l
  · simp only [if_pos h]
    constructor
    · exact Or.inl
    · rintro (h1 | rfl)
      · exact h1
      · exact h
  · simp [if_neg h]

theorem addToSet_idem (x : String) (l : List String) :
    addToSet x (addToSet x l) = addToSet x l := by
  unfold addToSet
  by_cases h : x ∈ l <;> simp [h]

theorem mem_pullItem {x y : String} {l : List String} :
    y ∈ pullItem x l ↔ y ∈ l ∧ y ≠ x := by
  simp [pullItem]

theorem pullItem_eq_self {x : String} {l : List String} (h : x ∉ l) :
    pullItem x l = l := by
  unfold pullItem
  apply List.filter_eq_self.mpr
  intro y hy
  simp only [decide_eq_true_eq]
  exact fun e => h (e ▸ hy)

theorem followUser_fault (s : Store) (a b : String) (f : Fault) :
    (followUser s a b (some f)).store = s ∧
    (followUser s a b (some f)).ok = false := by
  cases f <;> exact ⟨rfl, rfl⟩

theorem removeFollow_fault (s : Store) (a b : String) (f : Fault) :
    (removeFollow s a b (some f)).store = s ∧
    (removeFollow s a b (some f)).ok = false := by
  by_cases hab : a = b <;> cases f <;> simp [removeFollow, hab]

/-- C2: any error before commit aborts the transaction — for every fault
point, both `followUser` and `removeFollow` leave the visible store
exactly as it was (neither `followers` nor `following` of any record
changes) and return `false`. -/
theorem txAbortLeavesStoreUnchanged (s : Store) (a b : String) (f : Fault) :
    (followUser s a b (some f)).store = s ∧
    (followUser s a b (some f)).ok = false ∧
    (removeFollow s a b (some f)).store = s ∧
    (removeFollow s a b (some f)).ok = false := by
  obtain ⟨h1, h2⟩ := followUser_fault s a b f
  obtain ⟨h3, h4⟩ := removeFollow_fault s a b f
  exact ⟨h1, h2, h3, h4⟩

/-- C5 counterexample: the user `"u"` exists and is followed by `"a"`,
yet under a storage fault `isFollowing` reports `false` (the same value
as a genuine non-follow), `findFollowers` reports `[]`, and
`getFollowCounts` reports `none` — the exact shape of not-found — so a
storage failure is coerced into success-shaped results. -/
theorem readsCoerceFailureCex :
    storeUserU "u" ≠ none ∧
    isFollowing storeUserU "a" "u" false = true ∧
    isFollowing storeUserU "a" "u" true = false ∧
    findFollowers storeUserU "u" true = [] ∧
    findFollowing storeUserU "u" true = [] ∧
    getFollowCounts storeUserU "u" true = none := by
  refine ⟨by decide, rfl, rfl, rfl, rfl, rfl⟩

/-- C5 amended: the read operations DO coerce storage failures — on a
thrown storage error `isFollowing` returns `false`, the two listings
return `[]`, and `getFollowCounts` returns `none`, indistinguishable
from genuine not-following / empty / not-found results. -/
theorem readsFaultReturnDefaults (s : Store) (a u : String) :
    isFollowing s a u true = false ∧
    findFollowers s u true = [] ∧
    findFollowing s u true = [] ∧
    getFollowCounts s u true = none :=
  ⟨rfl, rfl, rfl, rfl⟩

theorem findByIdAndUpdate_apply (s : Store) (id k : String)
    (f : UserRec → UserRec) :
    findByIdAndUpdate s id f k = if k = id then (s k).map f else s k := rfl

theorem followUser_commit_store (s : Store) (a b : String) :
    (followUser s a b none).store =
      findByIdAndUpdate
        (findByIdAndUpdate s b
          (fun u => { u with followers := addToSet a u.followers }))
        a (fun u => { u with following := addToSet b u.following }) := rfl

theorem followUser_commit_store_at (s : Store) (a b k : String) :
    (followUser s a b none).store k =
      (s k).map (fun u =>
        { u with
          followers := if k = b then addToSet a u.followers else u.followers,
          following := if k = a then addToSet b u.following else u.following }) := by
  rw [followUser_commit_store]
  simp only [findByIdAndUpdate_apply]
  cases hsk : s k <;> split_ifs <;> rfl

theorem removeFollow_commit_store_at (s : Store) (a b k : String)
    (hab : a ≠ b) :
    (removeFollow s a b none).store k =
      (s k).map (fun u =>
        { u with
          followers := if k = b then pullItem a u.followers else u.followers,
          following := if k = a then pullItem b u.following else u.following }) := by
  have hr : (removeFollow s a b none).store =
      findByIdAndUpdate
        (findByIdAndUpdate s b
          (fun u => { u with followers := pullItem a u.followers }))
        a (fun u => { u with following := pullItem b u.following }) := by
    simp [removeFollow, hab]
  rw [hr]
  simp only [findByIdAndUpdate_apply]
  cases hsk : s k <;> split_ifs <;> rfl

theorem isFollowerIn_followUser (s : Store) (a b x y : String) :
    isFollowerIn (followUser s a b none).store x y =
      (isFollowerIn s x y ||
        (decide (x = a) && decide (y = b) && (s b).isSome)) := by
  unfold isFollowerIn
  rw [followUser_commit_store_at]
  cases hsy : s y with
  | none =>
    by_cases hyb : y = b
    · subst hyb
      simp [hsy]
    · simp [hyb]
  | some u =>
    by_cases hyb : y = b
    · subst hyb
      simp [hsy, mem_addToSet]
    · simp [hyb]

theorem isFollowingIn_followUser (s : Store) (a b x y : String) :
    isFollowingIn (followUser s a b none).store x y =
      (isFollowingIn s x y ||
        (decide (x = a) && decide (y = b) && (s a).isSome)) := by
  unfold isFollowingIn
  rw [followUser_commit_store_at]
  cases hsx : s x with
  | none =>
    by_cases hxa : x = a
    · subst hxa
      simp [hsx]
    · simp [hxa]
  | some u =>
    by_cases hxa : x = a
    · subst hxa
      simp [hsx, mem_addToSet]
    · simp [hxa]

theorem isFollowerIn_removeFollow (s : Store) (a b x y : String)
    (hab : a ≠ b) :
    isFollowerIn (removeFollow s a b none).store x y =
      (isFollowerIn s x y && !(decide (x = a) && decide (y = b))) := by
  unfold isFollowerIn
  rw [removeFollow_commit_store_at s a b y hab]
  cases hsy : s y with
  | none =>
    simp
  | some u =>
    by_cases hyb : y = b
    · subst hyb
      simp [mem_pullItem, Bool.and_comm]
    · simp [hyb]

theorem isFollowingIn_removeFollow (s : Store) (a b x y : String)
    (hab : a ≠ b) :
    isFollowingIn (removeFollow s a b none).store x y =
      (isFollowingIn s x y && !(decide (x = a) && decide (y = b))) := by
  unfold isFollowingIn
  rw [removeFollow_commit_store_at s a b x hab]
  cases hsx : s x with
  | none =>
    simp
  | some u =>
    by_cases hxa : x = a
    · subst hxa
      simp [mem_pullItem, Bool.and_comm]
    · simp [hxa]

/-- C6: `removeFollow(A, A)` short-circuits — it returns `false`,
changes nothing, and performs no storage operation at all (no session is
started), whereas `followUser(A, A)` has no such guard: it always starts
a session, and with no fault it proceeds through the transactional
writes and returns `true`. -/
theorem selfUnfollowAsymmetry (s : Store) (a : String) (f g : Option Fault) :
    removeFollow s a a f = { store := s, ok := false, ops := [] } ∧
    StorageOp.startSession ∈ (followUser s a a g).ops ∧
    (followUser s a a none).ops =
      [.startSession, .update a, .update a, .commitTx] ∧
    (followUser s a a none).ok = true := by
  refine ⟨by simp [removeFollow], ?_, rfl, rfl⟩
  cases g with
  | none => simp [followUser]
  | some ff => cases ff <;> simp [followUser]

/-- Concrete store: both `"a"` and `"b"` exist, with empty edge sets. -/
def storeAB : Store :=
  fun k =>
    if k = "a" then some ⟨"A", none, [], []⟩
    else if k = "b" then some ⟨"Bee", none, [], []⟩
    else none

/-- C1 counterexample: in a store where only `"b"` exists, dual
consistency holds, yet a committed `followUser "a" "b"` breaks it — the
`$addToSet` on the missing record `"a"` is a silent no-op, so `"a"` ends
up in `"b".followers` while no record says `"b" ∈ "a".following`. -/
theorem dualConsistencyNotPreservedCex :
    dualConsistent storeOnlyB ∧
    (followUser storeOnlyB "a" "b" none).ok = true ∧
    ¬ dualConsistent (followUser storeOnlyB "a" "b" none).store := by
  refine ⟨?_, rfl, fun h => ?_⟩
  · intro x y _
    simp only [isFollowerIn, isFollowingIn, storeOnlyB]
    split_ifs <;> simp
  · have h2 := h "a" "b" (by decide)
    have e1 : isFollowerIn (followUser storeOnlyB "a" "b" none).store
        "a" "b" = true := by
      rw [isFollowerIn_followUser]
      decide
    have e2 : isFollowingIn (followUser storeOnlyB "a" "b" none).store
        "a" "b" = false := by
      rw [isFollowingIn_followUser]
      decide
    rw [e1, e2] at h2
    exact Bool.noConfusion h2

/-- C1 amended: dual consistency is preserved by every committed or
aborted `followUser`/`removeFollow` call provided both the actor's and
the target's records exist; without that proviso a committed follow can
break it (see the counterexample). -/
theorem dualConsistencyPreserved (s : Store) (a b : String)
    (f : Option Fault) (hd : dualConsistent s)
    (ha : (s a).isSome = true) (hb : (s b).isSome = true) :
    dualConsistent (followUser s a b f).store ∧
    dualConsistent (removeFollow s a b f).store := by
  constructor
  · cases f with
    | some ff =>
      rw [(followUser_fault s a b ff).1]
      exact hd
    | none =>
      intro x y hxy
      rw [isFollowerIn_followUser, isFollowingIn_followUser,
        hd x y hxy, ha, hb]
  · cases f with
    | some ff =>
      rw [(removeFollow_fault s a b ff).1]
      exact hd
    | none =>
      by_cases hab : a = b
      · have hst : (removeFollow s a b none).store = s := by
          simp [removeFollow, hab]
        rw [hst]
        exact hd
      · intro x y hxy
        rw [isFollowerIn_removeFollow s a b x y hab,
          isFollowingIn_removeFollow s a b x y hab, hd x y hxy]

/-- C1 witness: the amended preservation theorem applied to the concrete
store in which both `"a"` and `"b"` exist. -/
theorem dualConsistencyPreservedWitness :
    dualConsistent (followUser storeAB "a" "b" none).store ∧
    dualConsistent (removeFollow storeAB "a" "b" none).store :=
  dualConsistencyPreserved storeAB "a" "b" none
    (by
      intro x y _
      simp only [isFollowerIn, isFollowingIn, storeAB]
      split_ifs <;> simp)
    rfl rfl

/-- C10: `followUser(A, A)` is not rejected — when the transaction
commits it returns `true`, and when A's record exists the committed
store has A in both `A.followers` and `A.following`: a dual-consistent
self-edge. -/
theorem followSelfCreatesSelfEdge (s : Store) (a : String)
    (h : (s a).isSome = true) :
    (followUser s a a none).ok = true ∧
    isFollowerIn (followUser s a a none).store a a = true ∧
    isFollowingIn (followUser s a a none).store a a = true := by
  refine ⟨rfl, ?_, ?_⟩
  · rw [isFollowerIn_followUser, h]
    simp
  · rw [isFollowingIn_followUser, h]
    simp

/-- C10 witness: the self-follow theorem applied to the concrete store
in which `"a"` exists with empty edge sets. -/
theorem followSelfCreatesSelfEdgeWitness :
    (followUser storeOnlyA "a" "a" none).ok = true ∧
    isFollowerIn (followUser storeOnlyA "a" "a" none).store "a" "a" = true ∧
    isFollowingIn (followUser storeOnlyA "a" "a" none).store "a" "a" = true :=
  followSelfCreatesSelfEdge storeOnlyA "a" rfl

/-- C7: committed `followUser` is idempotent — both insertions are
`$addToSet` set-unions, so running the call a second time leaves the
whole store (and hence the target's follow counts) exactly as after the
first call. -/
theorem followUserIdempotent (s : Store) (a b : String) :
    (followUser (followUser s a b none).store a b none).store =
      (followUser s a b none).store ∧
    getFollowCounts
        (followUser (followUser s a b none).store a b none).store b false =
      getFollowCounts (followUser s a b none).store b false := by
  have hst : (followUser (followUser s a b none).store a b none).store =
      (followUser s a b none).store := by
    funext k
    simp only [followUser_commit_store_at]
    cases hsk : s k <;> split_ifs <;> simp [addToSet_idem]
  exact ⟨hst, by rw [hst]⟩

/-- C8: for distinct ids, a committed `removeFollow` on a non-existent
edge (the actor is in neither the target's followers nor does the
actor's record list the target) is a no-op on the whole store and still
returns `true`. -/
theorem unfollowNonEdgeNoop (s : Store) (a b : String) (hab : a ≠ b)
    (hf : isFollowerIn s a b = false) (hg : isFollowingIn s a b = false) :
    (removeFollow s a b none).store = s ∧
    (removeFollow s a b none).ok = true := by
  constructor
  · funext k
    rw [removeFollow_commit_store_at s a b k hab]
    cases hsk : s k with
    | none => rfl
    | some u =>
      have hfl : (if k = b then pullItem a u.followers else u.followers) =
          u.followers := by
        by_cases hkb : k = b
        · subst hkb
          rw [if_pos rfl]

          apply pullItem_eq_self
          unfold isFollowerIn at hf
          rw [hsk] at hf
          simpa using hf
        · rw [if_neg hkb]
      have hfg : (if k = a then pullItem b u.following else u.following) =
          u.following := by
        by_cases hka : k = a
        · subst hka
          rw [if_pos rfl]
          apply pullItem_eq_self
          unfold isFollowingIn at hg
          rw [hsk] at hg
          simpa using hg
        · rw [if_neg hka]
      simp only [Option.map_some']
      rw [hfl, hfg]
  · simp [removeFollow, hab]

/-- C8 witness: the no-op unfollow theorem applied to the concrete store
in which only `"b"` exists with no followers. -/
theorem unfollowNonEdgeNoopWitness :
    (removeFollow storeOnlyB "a" "b" none).store = storeOnlyB ∧
    (removeFollow storeOnlyB "a" "b" none).ok = true :=
  unfollowNonEdgeNoop storeOnlyB "a" "b" (by decide) (by decide) (by decide)

/-- C4 counterexample: `"b"` has no record, yet the committed
`followUser "a" "b"` returns `true` (not Failure) and changes `"a"`'s
record — `"b"` is added to `"a".following` — so a missing target does
not abort the operation and a field does change. -/
theorem followMissingTargetCex :
    storeOnlyA "b" = none ∧
    (followUser storeOnlyA "a" "b" none).ok = true ∧
    (followUser storeOnlyA "a" "b" none).store "a" =
      some ⟨"A", none, [], ["b"]⟩ ∧
    (followUser storeOnlyA "a" "b" none).store "a" ≠ storeOnlyA "a" := by
  refine ⟨rfl, rfl, rfl, ?_⟩
  intro h
  rw [show (followUser storeOnlyA "a" "b" none).store "a" =
      some ⟨"A", none, [], ["b"]⟩ from rfl] at h
  rw [show storeOnlyA "a" = some ⟨"A", none, [], []⟩ from rfl] at h
  simp at h

/-- C4 amended: when the target id resolves to no record, the committed
`followUser` does NOT abort — the update on the missing target is a
silent no-op, the transaction commits and returns `true`, the target
still has no record, and the actor's record (when it exists) still gains
the target in its `following` set. -/
theorem followMissingTargetNoAbort (s : Store) (a b : String)
    (h : s b = none) :
    (followUser s a b none).ok = true ∧
    (followUser s a b none).store b = none ∧
    (followUser s a b none).store a =
      (s a).map (fun u => { u with following := addToSet b u.following }) := by
  refine ⟨rfl, ?_, ?_⟩
  · rw [followUser_commit_store_at, h]
    rfl
  · rw [followUser_commit_store_at]
    by_cases hab : a = b
    · rw [hab, h]
      rfl
    · cases hsa : s a with
      | none => rfl
      | some u =>
        simp [hab]

/-- C4 witness: the amended missing-target theorem applied to the
concrete store in which only `"a"` exists. -/
theorem followMissingTargetNoAbortWitness :
    (followUser storeOnlyA "a" "b" none).ok = true ∧
    (followUser storeOnlyA "a" "b" none).store "b" = none ∧
    (followUser storeOnlyA "a" "b" none).store "a" =
      (storeOnlyA "a").map
        (fun u => { u with following := addToSet "b" u.following }) :=
  followMissingTargetNoAbort storeOnlyA "a" "b" rfl

/-- C9: `getFollowCounts` returns the exact cardinalities of the
followers and following sets when the record exists (the stored lists
are duplicate-free sets), and `none` — not zero counts — when the record
does not exist. -/
theorem followCountsSpec (s : Store) (u : String) :
    (∀ r : UserRec, s u = some r → r.followers.Nodup → r.following.Nodup →
      getFollowCounts s u false =
        some { followerCount := r.followers.toFinset.card,
               followingCount := r.following.toFinset.card }) ∧
    (s u = none → getFollowCounts s u false = none) := by
  constructor
  · intro r hr h1 h2
    simp [getFollowCounts, hr, List.toFinset_card_of_nodup h1,
      List.toFinset_card_of_nodup h2]
  · intro hr
    simp [getFollowCounts, hr]

/-- C9 witness: in the concrete store where `"u"` has one follower and
follows nobody, the counts are `{1, 0}`, and the missing record `"v"`
yields `none`. -/
theorem followCountsSpecWitness :
    getFollowCounts storeUserUFollowerA "u" false =
      some { followerCount := 1, followingCount := 0 } ∧
    getFollowCounts storeUserUFollowerA "v" false = none := by
  constructor
  · have h := (followCountsSpec storeUserUFollowerA "u").1
      ⟨"U", none, ["a"], []⟩ rfl (by decide) (by decide)
    simpa using h
  · exact (followCountsSpec storeUserUFollowerA "v").2 rfl

/-- C3: for every authenticated actor and non-empty target id, the
middleware's allow/deny outcome is exactly the spec's decision matrix —
a pure function of `(isSelf, isAdmin, method == DELETE)` — and the one
admin restriction (self `DELETE`) throws the middleware's 403
permission-denied error. -/
theorem authorizationMatrix (msg : String) (u : AuthUser)
    (tid method : String) (h : tid ≠ "") :
    (authorizeUserAction msg (some u) (some tid) method =
        AuthDecision.next ↔
      specDecisionMatrix (decide (u.id = tid))
        (decide (u.role = UserRole.ADMIN))
        (decide (method.toUpper = "DELETE")) = true) ∧
    (u.role = UserRole.ADMIN → u.id = tid → method.toUpper = "DELETE" →
      authorizeUserAction msg (some u) (some tid) method =
        AuthDecision.apiError msg 403 "PERMISSION_DENIED") := by
  constructor
  · by_cases h1 : u.role = UserRole.ADMIN <;>
      by_cases h2 : u.id = tid <;>
      by_cases h3 : method.toUpper = "DELETE" <;>
      simp [authorizeUserAction, specDecisionMatrix, h, h1, h2, h3]
  · intro h1 h2 h3
    simp [authorizeUserAction, h, h1, h2, h3]

/-- C3 witness: the matrix theorem applied at the spec's literal
scenario actor `{id: "a1", role: ADMIN}`, target `"a1"`,
method `DELETE` (with the middleware's default message). -/
theorem authorizationMatrixWitness :
    (authorizeUserAction defaultAuthMessage
        (some ⟨"a1", UserRole.ADMIN⟩) (some "a1") "DELETE" =
        AuthDecision.next ↔
      specDecisionMatrix (decide (("a1" : String) = "a1"))
        (decide (UserRole.ADMIN = UserRole.ADMIN))
        (decide ("DELETE".toUpper = "DELETE")) = true) ∧
    (UserRole.ADMIN = UserRole.ADMIN → ("a1" : String) = "a1" →
      "DELETE".toUpper = "DELETE" →
      authorizeUserAction defaultAuthMessage
          (some ⟨"a1", UserRole.ADMIN⟩) (some "a1") "DELETE" =
        AuthDecision.apiError defaultAuthMessage 403 "PERMISSION_DENIED") :=
  authorizationMatrix defaultAuthMessage ⟨"a1", UserRole.ADMIN⟩
    "a1" "DELETE" (by decide)

end ApnaSpace
